import Mathlib

set_option maxHeartbeats 1000000
set_option maxRecDepth 4000

/-!
Verification development for the wind-data analysis pipeline.

The definitions below are a shallow embedding of the repository's core:
the per-fetcher daily aggregation (`openmeteo_fetcher.py`,
`meteostat_fetcher.py`), the Gumbel return-level estimator and the
per-site aggregation pass (`modules/analysis_runner.py`), and the
threshold comparator (`global trend/global_comparator.py`).

Modelling conventions:
- pandas float columns carrying data are modelled over `ℚ` (the data
  pipeline: filters, maxima, counting) and over `ℝ` where the code does
  transcendental arithmetic (`gumbel_r.ppf` uses logarithms);
- a pandas `NaN` entry is `none` (`Option ℚ`), `dropna` is `filterMap`;
- a time-indexed daily series is a list of `(year, value)` pairs, since
  the only use the analysis makes of the timestamp is `resample('YE')`
  grouping by calendar year;
- `scipy.stats.gumbel_r.fit` is an external library routine, not code of
  this repository; it is modelled as a parameter
  `fit : List ℚ → Option (ℝ × ℝ)` returning the `(loc, scale)` pair, with
  `none` standing for the exception / non-finite-parameter path caught by
  the caller;
- Python `round(x, 2)` is modelled as rounding `100 * x` to a nearest
  integer.
-/

/-- Gumbel (extreme value type I) percent-point function, as used by
`gumbel_r.ppf(p, loc=loc, scale=scale)` in `compute_return_level_50y`
(`analysis_runner.py` line 48): `loc - scale * log(-log p)`. -/
noncomputable def gumbel_ppf (p loc scale : ℝ) : ℝ :=
  loc - scale * Real.log (-Real.log p)

/-- Python `round(x, 2)` (`analysis_runner.py` line 49), modelled as
rounding `100 * x` to a nearest integer and dividing back. -/
noncomputable def round2 (x : ℝ) : ℝ :=
  ((round (100 * x) : ℤ) : ℝ) / 100

/-- The return level on the fitted Gumbel distribution for a return period
of `T` years: the fitted CDF inverted at non-exceedance probability
`p = 1 - 1/T` (`analysis_runner.py` lines 47-48, with the hard-coded
period 50 generalised to `T`). -/
noncomputable def returnLevel (T loc scale : ℝ) : ℝ :=
  gumbel_ppf (1 - 1 / T) loc scale

/-- Python `name.startswith("noaa")`, the naming convention flagging
reference/validation-only sources (`analysis_runner.py` line 763,
`global_comparator.py` line 32): the first four characters of the key
are "noaa". -/
def isNoaaKey (name : String) : Bool :=
  name.data.take 4 = "noaa".data

/-- A daily wind series after `dropna`: `(year of timestamp, value)` rows. -/
abbrev DailySeries := List (ℤ × ℚ)

/-- The values of a series falling in calendar year `y`
(the groups formed by `series.resample('YE')`). -/
def valuesInYear (s : DailySeries) (y : ℤ) : List ℚ :=
  (s.filter (fun r => r.1 = y)).map Prod.snd

/-- The distinct years present in a series, ascending (the index produced
by `resample('YE').max().dropna()`: only years with at least one row
survive the final `dropna`). -/
def yearsOf (s : DailySeries) : List ℤ :=
  ((s.map Prod.fst).dedup).insertionSort (fun a b => a ≤ b)

/-- Maximum of a list of values, `none` on the empty list: pandas
`Series.max()` over one resample group. -/
def seriesMax (l : List ℚ) : Option ℚ :=
  l.maximum

/-- `series.resample('YE').max().dropna()` (`analysis_runner.py` lines 34
and 752): one row per year that has at least one value, carrying the
maximum value of that year. -/
def annualMax (s : DailySeries) : List (ℤ × ℚ) :=
  (yearsOf s).filterMap (fun y => (seriesMax (valuesInYear s y)).map (fun m => (y, m)))

/-- The annual-maxima sample handed to the Gumbel fit. -/
def annualMaxValues (s : DailySeries) : List ℚ :=
  (annualMax s).map Prod.snd

/-- `export_annual_max` (`analysis_runner.py` lines 751-758): the
`(year, max_value)` table written to `annual_max_{source}_{var}.csv`. -/
def exportAnnualMax (s : DailySeries) : List (ℤ × ℚ) :=
  annualMax s

/-- `compute_return_level_50y` (`analysis_runner.py` lines 21-52).
The input series is already free of missing values (`series.dropna()` is
the identity here); `annual_max = series.resample('YE').max().dropna()`;
fewer than 2 annual maxima returns `None`; fewer than 10 only prints a
warning; otherwise the Gumbel fit runs and the result is
`round(gumbel_r.ppf(1 - 1/50, loc, scale), 2)`, or `None` when the fit
raises. -/
noncomputable def compute_return_level_50y
    (fit : List ℚ → Option (ℝ × ℝ)) (series : DailySeries) : Option ℝ :=
  if (annualMaxValues series).length < 2 then none
  else
    match fit (annualMaxValues series) with
    | none => none
    | some (loc, scale) => some (round2 (gumbel_ppf (1 - 1 / 50) loc scale))

/-- One loaded per-source dataframe, as seen by `run_analysis_for_site`:
its harmonised key, whether a `time` column is present, and the optional
`windspeed_mean` / `windspeed_gust` columns, each a list of
`(year of timestamp, possibly-missing value)` rows. -/
structure SourceData where
  name : String
  hasTime : Bool
  mean_col : Option (List (ℤ × Option ℚ))
  gust_col : Option (List (ℤ × Option ℚ))

/-- `df.dropna(subset=[varname, "time"])` restricted to the variable
column (`analysis_runner.py` line 780). -/
def dropnaRows (rows : List (ℤ × Option ℚ)) : List (ℤ × ℚ) :=
  rows.filterMap (fun r => r.2.map (fun v => (r.1, v)))

/-- The cleaning applied before annual-maxima export and estimation
(`analysis_runner.py` lines 789-792): keep strictly positive values
(`series = series[(series > 0)]`), and for sources whose key starts with
"noaa" additionally drop the 999 sentinel
(`series.replace(999, np.nan).dropna()`). -/
def cleanSeries (name : String) (rows : List (ℤ × Option ℚ)) : DailySeries :=
  let series := (dropnaRows rows).filter (fun r => 0 < r.2)
  if isNoaaKey name then series.filter (fun r => r.2 ≠ 999) else series

/-- The `val_50y` computed for one (source, variable) pair
(`analysis_runner.py` lines 780-802): `None` when the dropna-ed frame is
empty, `None` when the cleaned series is empty, otherwise the result of
`compute_return_level_50y`. -/
noncomputable def returnLevelForVar
    (fit : List ℚ → Option (ℝ × ℝ)) (name : String)
    (rows : List (ℤ × Option ℚ)) : Option ℝ :=
  let df_clean := dropnaRows rows
  if df_clean = [] then none
  else
    let series := cleanSeries name rows
    if series = [] then none
    else compute_return_level_50y fit series

/-- One row of `return_period_50y.csv` (`analysis_runner.py` lines
804-809). `value = none` models the explicit `"N/A"` marker written when
`val_50y is None`. -/
structure ReturnRow where
  source : String
  varname : String
  value : Option ℝ
  threshold : ℚ

/-- The rows contributed by one (source, variable) pair: none when the
variable column or the `time` column is absent (the `continue` at
`analysis_runner.py` line 777-778), otherwise exactly one row, whose
value is `"N/A"` (`none`) on every failure path. -/
noncomputable def rowsForVar
    (fit : List ℚ → Option (ℝ × ℝ)) (src : SourceData) (varname : String)
    (col : Option (List (ℤ × Option ℚ))) (bc : ℚ) : List ReturnRow :=
  match col with
  | none => []
  | some rows =>
    if src.hasTime then [⟨src.name, varname, returnLevelForVar fit src.name rows, bc⟩]
    else []

/-- The rows contributed by one source to `results_50y`
(`analysis_runner.py` lines 760-809): sources whose key starts with
"noaa" are skipped wholesale (line 763), the others are processed for
`windspeed_mean` then `windspeed_gust`. -/
noncomputable def sourceRows
    (fit : List ℚ → Option (ℝ × ℝ)) (bcMean bcGust : ℚ)
    (src : SourceData) : List ReturnRow :=
  if isNoaaKey src.name then []
  else
    rowsForVar fit src "windspeed_mean" src.mean_col bcMean ++
      rowsForVar fit src "windspeed_gust" src.gust_col bcGust

/-- The full `return_period_50y.csv` table assembled over all loaded
sources. -/
noncomputable def returnPeriodTable
    (fit : List ℚ → Option (ℝ × ℝ)) (bcMean bcGust : ℚ)
    (srcs : List SourceData) : List ReturnRow :=
  (srcs.map (sourceRows fit bcMean bcGust)).flatten

/-- `df["windspeed_mean"].dropna()` as used by the descriptive-statistics
pass (`analysis_runner.py` line 147). -/
def statsValidValues (rows : List (ℤ × Option ℚ)) : List ℚ :=
  rows.filterMap (fun r => r.2)

/-- Whether a source enters `stats_summary` (`analysis_runner.py` lines
145-154): it must have a `windspeed_mean` column with at least 5
non-missing values; otherwise it goes to `skipped_sources`. -/
def statsIncluded (src : SourceData) : Bool :=
  match src.mean_col with
  | none => false
  | some rows => 5 ≤ (statsValidValues rows).length

/-- The sources appearing in the descriptive-statistics output
`stats_windspeed_mean.csv`. -/
def statsSummaryNames (srcs : List SourceData) : List String :=
  (srcs.filter (fun s => statsIncluded s)).map (fun s => s.name)

/-- The `max` column of `describe()` for one source in the
descriptive-statistics output (`analysis_runner.py` line 149). -/
def statsDescribeMax (src : SourceData) : Option ℚ :=
  match src.mean_col with
  | none => none
  | some rows =>
    if 5 ≤ (statsValidValues rows).length then seriesMax (statsValidValues rows)
    else none

/-- A site-configuration entry for a building-code threshold, as consumed
by `float(site_config.get(key, 25)) or 25` wrapped in `try/except`
(`analysis_runner.py` lines 69-78): the key can be absent, hold a numeric
value, or hold a value on which `float()` raises. -/
inductive ConfigVal
  | missing
  | num (q : ℚ)
  | unparseable

/-- The threshold actually used (`analysis_runner.py` lines 69-78):
absent key → default 25; `float()` failure → 25 via `except`; value `0`
→ 25 via `or 25` (float `0.0` is falsy); any other number is kept. -/
def bcThreshold : ConfigVal → ℚ
  | ConfigVal.missing => 25
  | ConfigVal.unparseable => 25
  | ConfigVal.num q => if q = 0 then 25 else q

/-- `compare_sources_to_building_code` (`global_comparator.py` lines
44-55): the number of sources whose observed 50-year level strictly
exceeds the building-code value. -/
def nb_depassements (observed : List ℚ) (bc : ℚ) : ℕ :=
  (observed.filter (fun o => bc < o)).length

/-- The four qualitative conclusions of `generate_analysis_sentence`
(`global_comparator.py` lines 88-108): no valid source at all,
"no exceedance / possible over-design", "majority exceed / possible
under-design", and "partial-local exceedance, monitor". -/
inductive Tendance
  | noSource
  | overDesign
  | underDesign
  | monitorLocal
deriving DecidableEq

/-- The branch structure of `generate_analysis_sentence`
(`global_comparator.py` lines 91-101): `ratio = nbDep / nbSources`
(guarded to 0 when there is no source), then the chain
`nb_sources == 0` / `nb_depassements == 0` / `ratio >= 0.5` / else. -/
def generate_tendance (nbDep nbSources : ℕ) : Tendance :=
  if nbSources = 0 then Tendance.noSource
  else if nbDep = 0 then Tendance.overDesign
  else if (1 : ℚ) / 2 ≤ (nbDep : ℚ) / (nbSources : ℚ) then Tendance.underDesign
  else Tendance.monitorLocal

/-- Claim C10: an absent, unparseable, or zero building-code threshold in
the site configuration is replaced by 25 m/s; any other numeric value is
used as configured. -/
theorem C10_threshold_fallback (q : ℚ) (hq : q ≠ 0) :
    bcThreshold ConfigVal.missing = 25 ∧
    bcThreshold ConfigVal.unparseable = 25 ∧
    bcThreshold (ConfigVal.num 0) = 25 ∧
    bcThreshold (ConfigVal.num q) = q := by
  refine ⟨rfl, rfl, by simp [bcThreshold], ?_⟩
  simp [bcThreshold, hq]

/-- Claim C10 witness: the fallback evaluated at the concrete configured
values 0 (replaced by 25) and 30 (kept). -/
theorem C10_threshold_fallback_witness :
    bcThreshold ConfigVal.missing = 25 ∧
    bcThreshold ConfigVal.unparseable = 25 ∧
    bcThreshold (ConfigVal.num 0) = 25 ∧
    bcThreshold (ConfigVal.num 30) = 30 :=
  C10_threshold_fallback 30 (by norm_num)

/-- Claim C6: with at least one source, the comparator concludes
over-design iff zero sources exceed, under-design iff at least one source
exceeds and the exceeding fraction is at least 0.5 (inclusive), and
monitor otherwise; a source exceeds iff its deviation
`observed - threshold` is strictly positive. -/
theorem C6_classification (observed : List ℚ) (bc : ℚ) (hne : observed ≠ []) :
    (generate_tendance (nb_depassements observed bc) observed.length =
        Tendance.overDesign ↔ nb_depassements observed bc = 0) ∧
    (generate_tendance (nb_depassements observed bc) observed.length =
        Tendance.underDesign ↔
      (0 < nb_depassements observed bc ∧
        (1 : ℚ) / 2 ≤ (nb_depassements observed bc : ℚ) / (observed.length : ℚ))) ∧
    (generate_tendance (nb_depassements observed bc) observed.length =
        Tendance.monitorLocal ↔
      (0 < nb_depassements observed bc ∧
        (nb_depassements observed bc : ℚ) / (observed.length : ℚ) < 1 / 2)) ∧
    nb_depassements observed bc = (observed.filter (fun o => 0 < o - bc)).length := by
  have hn : observed.length ≠ 0 := by
    simpa [List.length_eq_zero] using hne
  refine ⟨?_, ?_, ?_, ?_⟩
  · unfold generate_tendance
    split_ifs with h0 h1 h2 <;> simp_all
  · unfold generate_tendance
    split_ifs with h0 h1 h2 <;>
      simp_all [Nat.pos_iff_ne_zero, not_le]
  · unfold generate_tendance
    split_ifs with h0 h1 h2 <;> simp_all [Nat.pos_iff_ne_zero, not_le]
  · unfold nb_depassements
    congr 1
    apply List.filter_congr
    intro o _
    simp [sub_pos]

/-- Claim C6 witness: two sources with observed levels 30 and 20 against
threshold 25 — exactly 50% exceed, and the inclusive boundary selects the
under-design (majority) branch. -/
theorem C6_classification_witness :
    generate_tendance (nb_depassements [30, 20] 25) [(30 : ℚ), 20].length =
      Tendance.underDesign := by
  refine ((C6_classification [30, 20] 25 (by simp)).2.1).mpr ⟨?_, ?_⟩
  · decide
  · norm_num [nb_depassements, List.filter]

/-- Claim C8: for a fixed fitted Gumbel distribution with positive scale,
the return level obtained by inverting the fitted CDF at
`p = 1 - 1/return_period_years` is strictly increasing in the return
period, for return periods greater than one year. -/
theorem C8_return_level_monotone (loc scale T₁ T₂ : ℝ)
    (hscale : 0 < scale) (hT₁ : 1 < T₁) (hT : T₁ < T₂) :
    returnLevel T₁ loc scale < returnLevel T₂ loc scale := by
  have hT₁0 : 0 < T₁ := lt_trans one_pos hT₁
  have hT₂0 : 0 < T₂ := lt_trans hT₁0 hT
  have hinv : 1 / T₂ < 1 / T₁ := one_div_lt_one_div_of_lt hT₁0 hT
  have hp₁pos : 0 < 1 - 1 / T₁ := by
    have h : 1 / T₁ < 1 := by
      rw [div_lt_one hT₁0]; exact hT₁
    linarith
  have hp₂pos : 0 < 1 - 1 / T₂ := by linarith
  have hp₁lt1 : 1 - 1 / T₁ < 1 := by
    have h : 0 < 1 / T₁ := by positivity
    linarith
  have hp₂lt1 : 1 - 1 / T₂ < 1 := by
    have h : 0 < 1 / T₂ := by positivity
    linarith
  have hplt : 1 - 1 / T₁ < 1 - 1 / T₂ := by linarith
  have hl₂ : Real.log (1 - 1 / T₂) < 0 := Real.log_neg hp₂pos hp₂lt1
  have hll : Real.log (1 - 1 / T₁) < Real.log (1 - 1 / T₂) :=
    Real.log_lt_log hp₁pos hplt
  have hneg : -Real.log (1 - 1 / T₂) < -Real.log (1 - 1 / T₁) := by linarith
  have hpos₂ : 0 < -Real.log (1 - 1 / T₂) := by linarith
  have houter : Real.log (-Real.log (1 - 1 / T₂)) < Real.log (-Real.log (1 - 1 / T₁)) :=
    Real.log_lt_log hpos₂ hneg
  have hmul := mul_lt_mul_of_pos_left houter hscale
  unfold returnLevel gumbel_ppf
  linarith

/-- Claim C8 witness: on the standard Gumbel (loc 0, scale 1), the
50-year return level strictly exceeds the 10-year return level. -/
theorem C8_return_level_monotone_witness :
    returnLevel 10 0 1 < returnLevel 50 0 1 :=
  C8_return_level_monotone 0 1 10 50 (by norm_num) (by norm_num) (by norm_num)

/-- Claim C3: whenever the Gumbel fit succeeds with parameters
`(loc, scale)` on an annual-maxima sample long enough to be fitted, the
50-year value returned is the fitted Gumbel quantile at non-exceedance
probability `1 - 1/50` — that is, `loc - scale * log (-log (1 - 1/50))` —
rounded to 2 decimal places, and `1 - 1/50 = 0.98`. -/
theorem C3_return_level_formula
    (fit : List ℚ → Option (ℝ × ℝ)) (series : DailySeries) (loc scale : ℝ)
    (hlen : 2 ≤ (annualMaxValues series).length)
    (hfit : fit (annualMaxValues series) = some (loc, scale)) :
    compute_return_level_50y fit series =
      some (round2 (loc - scale * Real.log (-Real.log (1 - 1 / 50)))) ∧
    (1 - 1 / 50 : ℝ) = 98 / 100 := by
  constructor
  · unfold compute_return_level_50y
    rw [if_neg (by omega), hfit]
    rfl
  · norm_num

/-- Fit oracle for the claim-C3 witness: records a fit returning
location 10 and scale 2. -/
def fitC3 : List ℚ → Option (ℝ × ℝ) := fun _ => some (10, 2)

/-- A two-year daily series for the claim-C3 witness. -/
def seriesC3 : DailySeries := [(2000, 12), (2001, 15)]

/-- Claim C3 witness: the pipeline evaluated on a concrete two-year
series with a concrete successful fit returns exactly the rounded Gumbel
quantile at probability 0.98. -/
theorem C3_return_level_formula_witness :
    compute_return_level_50y fitC3 seriesC3 =
      some (round2 (10 - 2 * Real.log (-Real.log (1 - 1 / 50)))) ∧
    (1 - 1 / 50 : ℝ) = 98 / 100 :=
  C3_return_level_formula fitC3 seriesC3 10 2 (by decide) rfl

/-- Fit oracle for the claim-C1 counterexample: records that the fit
succeeds (scipy's Gumbel maximum-likelihood fit succeeds with finite
parameters on any non-degenerate finite sample, e.g. on the nine-year
sample below). -/
def fitC1 : List ℚ → Option (ℝ × ℝ) := fun _ => some (11, 2)

/-- A daily series with exactly nine years of data, one value per year. -/
def seriesC1 : DailySeries :=
  [(2000, 10), (2001, 12), (2002, 9), (2003, 14), (2004, 11),
   (2005, 13), (2006, 15), (2007, 9), (2008, 10)]

/-- Claim C1 counterexample: a series of exactly 9 annual maxima on which
the fit succeeds does NOT yield UNAVAILABLE — `compute_return_level_50y`
returns a numeric estimate, because the code's hard gate is
`len(annual_max) < 2` and lengths below 10 only trigger a printed
warning (`analysis_runner.py` lines 39-43). -/
theorem C1_counterexample :
    (annualMaxValues seriesC1).length = 9 ∧
    compute_return_level_50y fitC1 seriesC1 ≠ none := by
  constructor
  · decide
  · unfold compute_return_level_50y
    rw [if_neg (by decide)]
    simp [fitC1]

/-- Claim C1 amended: the estimator's hard UNAVAILABLE gate is at 2
annual maxima, not at min_years = 10: with fewer than 2 annual maxima it
returns UNAVAILABLE, while with at least 2 — including lengths 2 through
9, which only trigger a high-uncertainty warning — a successful fit
yields a numeric return level; in particular a series of 10 annual maxima
with a successful fit yields a numeric return level. -/
theorem C1_gumbel_gate (fit : List ℚ → Option (ℝ × ℝ)) (series : DailySeries) :
    ((annualMaxValues series).length < 2 →
      compute_return_level_50y fit series = none) ∧
    (∀ loc scale : ℝ, 2 ≤ (annualMaxValues series).length →
      fit (annualMaxValues series) = some (loc, scale) →
      ∃ r : ℝ, compute_return_level_50y fit series = some r) := by
  constructor
  · intro h
    unfold compute_return_level_50y
    rw [if_pos h]
  · intro loc scale hlen hfit
    refine ⟨round2 (gumbel_ppf (1 - 1 / 50) loc scale), ?_⟩
    unfold compute_return_level_50y
    rw [if_neg (by omega), hfit]

/-- A two-year daily series for the claim-C1 witness. -/
def seriesC1W : DailySeries := [(2010, 8), (2011, 16)]

/-- Claim C1 witness: the amended gate applied at a concrete two-year
series with a concrete successful fit produces a numeric return level. -/
theorem C1_gumbel_gate_witness :
    ∃ r : ℝ, compute_return_level_50y fitC1 seriesC1W = some r :=
  (C1_gumbel_gate fitC1 seriesC1W).2 11 2 (by decide) rfl

/-- A maximum reported by `seriesMax` is attained by a list element and
bounds every element (pandas `Series.max()` semantics). -/
theorem seriesMax_spec {l : List ℚ} {m : ℚ} (h : seriesMax l = some m) :
    m ∈ l ∧ ∀ v ∈ l, v ≤ m :=
  List.maximum_eq_coe_iff.mp h

/-- Sub-daily samples as `(UTC calendar day, value)` pairs; the values of
one day are the group formed by `groupby("date")` in the fetchers. -/
def dayValues (samples : List (ℤ × ℚ)) (d : ℤ) : List ℚ :=
  (samples.filter (fun s => s.1 = d)).map Prod.snd

/-- Arithmetic mean of a group, `none` on the empty group (pandas
`"mean"` aggregation). -/
def listMean (l : List ℚ) : Option ℚ :=
  if l = [] then none else some (l.sum / (l.length : ℚ))

/-- Daily `windspeed_mean` of the OpenMeteo fetcher
(`openmeteo_fetcher.py` lines 37-52): `groupby("date")` with the
`"mean"` aggregation on `windspeed_10m`, then the fixed 1-hour → 10-min
factor `* 1.10`. -/
def openmeteoDailyMean (hourlySpeeds : List (ℤ × ℚ)) (d : ℤ) : Option ℚ :=
  (listMean (dayValues hourlySpeeds d)).map (fun v => v * (11 / 10))

/-- Daily `windspeed_gust` of the OpenMeteo fetcher
(`openmeteo_fetcher.py` lines 37-48): `groupby("date")` with the `"max"`
aggregation on `windgusts_10m`. -/
def openmeteoDailyGust (hourlyGusts : List (ℤ × ℚ)) (d : ℤ) : Option ℚ :=
  seriesMax (dayValues hourlyGusts d)

/-- The km/h → m/s conversion of the Meteostat fetcher
(`meteostat_fetcher.py` lines 111-113): division by 3.6. -/
def kmhToMs (v : ℚ) : ℚ := v / (18 / 5)

/-- Daily `windspeed_mean` of the Meteostat fetcher
(`meteostat_fetcher.py` lines 111-139, with no optional correction
factor): convert each hourly `wspd` to m/s, then take the daily MAXIMUM
(`grouped["wspd_ms"].max()`). -/
def meteostatDailyMean (hourlyKmh : List (ℤ × ℚ)) (d : ℤ) : Option ℚ :=
  seriesMax (dayValues (hourlyKmh.map (fun s => (s.1, kmhToMs s.2))) d)

/-- Daily `windspeed_gust` of the Meteostat fetcher
(`meteostat_fetcher.py` lines 113-142): convert each hourly `wpgt` to
m/s, then take the daily maximum (`grouped["wpgt_ms"].max()`). -/
def meteostatDailyGust (hourlyGustKmh : List (ℤ × ℚ)) (d : ℤ) : Option ℚ :=
  seriesMax (dayValues (hourlyGustKmh.map (fun s => (s.1, kmhToMs s.2))) d)

/-- One UTC day of OpenMeteo hourly mean-wind samples whose daily mean
and daily maximum differ. -/
def omSamplesC2 : List (ℤ × ℚ) := [(0, 0), (0, 10)]

/-- Claim C2 counterexample: for the OpenMeteo source, the harmonized
daily `windspeed_mean` of a day with hourly means 0 and 10 m/s is
`(0 + 10)/2 * 1.10 = 5.5` — the AVERAGE of the sub-daily means (times
the 1.10 factor), not their maximum 10: `openmeteo_fetcher.py` aggregates
`windspeed_10m` with `"mean"`, not `"max"`. -/
theorem C2_counterexample :
    openmeteoDailyMean omSamplesC2 0 = some (11 / 2) ∧
    seriesMax (dayValues omSamplesC2 0) = some 10 ∧
    openmeteoDailyMean omSamplesC2 0 ≠ seriesMax (dayValues omSamplesC2 0) := by
  have h1 : openmeteoDailyMean omSamplesC2 0 = some (11 / 2) := by
    norm_num [openmeteoDailyMean, omSamplesC2, dayValues, listMean]
    exact ⟨5, ⟨by simp, rfl⟩, by norm_num⟩
  have h2 : seriesMax (dayValues omSamplesC2 0) = some 10 := by decide
  refine ⟨h1, h2, ?_⟩
  rw [h1, h2]
  norm_num

/-- Claim C2 amended: the daily-maximum convention holds for the
Meteostat fetcher (daily `windspeed_mean` is the maximum of the sub-daily
m/s speeds, daily `windspeed_gust` the maximum of the sub-daily gusts)
and for OpenMeteo gusts, but the OpenMeteo daily `windspeed_mean` is
1.10 times the AVERAGE of the sub-daily mean speeds of the day — the two
conventions are mixed across sources in one run. -/
theorem C2_daily_aggregation
    (speeds gusts kmhSpeeds kmhGusts : List (ℤ × ℚ)) (d : ℤ) :
    (∀ m : ℚ, meteostatDailyMean kmhSpeeds d = some m →
      m ∈ dayValues (kmhSpeeds.map (fun s => (s.1, kmhToMs s.2))) d ∧
      ∀ v ∈ dayValues (kmhSpeeds.map (fun s => (s.1, kmhToMs s.2))) d, v ≤ m) ∧
    (∀ m : ℚ, meteostatDailyGust kmhGusts d = some m →
      m ∈ dayValues (kmhGusts.map (fun s => (s.1, kmhToMs s.2))) d ∧
      ∀ v ∈ dayValues (kmhGusts.map (fun s => (s.1, kmhToMs s.2))) d, v ≤ m) ∧
    (∀ m : ℚ, openmeteoDailyGust gusts d = some m →
      m ∈ dayValues gusts d ∧ ∀ v ∈ dayValues gusts d, v ≤ m) ∧
    (∀ μ : ℚ, openmeteoDailyMean speeds d = some μ →
      μ = ((dayValues speeds d).sum / ((dayValues speeds d).length : ℚ)) * (11 / 10)) := by
  refine ⟨?_, ?_, ?_, ?_⟩
  · intro m hm
    exact seriesMax_spec hm
  · intro m hm
    exact seriesMax_spec hm
  · intro m hm
    exact seriesMax_spec hm
  · intro μ hμ
    rcases Option.map_eq_some'.mp hμ with ⟨w, hw, hwμ⟩
    unfold listMean at hw
    by_cases hempty : dayValues speeds d = []
    · rw [if_pos hempty] at hw
      cases hw
    · rw [if_neg hempty] at hw
      rw [← hwμ, ← Option.some_inj.mp hw]

/-- One UTC day of OpenMeteo hourly gust samples for the claim-C2
witness. -/
def gustSamplesC2 : List (ℤ × ℚ) := [(0, 7), (0, 12)]

/-- Claim C2 witness: the amended aggregation evaluated on concrete days
— the OpenMeteo daily gust 12 m/s is attained and maximal among the
day's gust samples, and the OpenMeteo daily mean 5.5 m/s equals 1.10
times the day's average mean speed. -/
theorem C2_daily_aggregation_witness :
    ((12 : ℚ) ∈ dayValues gustSamplesC2 0 ∧
      ∀ v ∈ dayValues gustSamplesC2 0, v ≤ 12) ∧
    (11 / 2 : ℚ) =
      ((dayValues omSamplesC2 0).sum / ((dayValues omSamplesC2 0).length : ℚ)) * (11 / 10) :=
  ⟨(C2_daily_aggregation omSamplesC2 gustSamplesC2 [] [] 0).2.2.1 12 (by decide),
   (C2_daily_aggregation omSamplesC2 gustSamplesC2 [] [] 0).2.2.2 (11 / 2)
     (by norm_num [openmeteoDailyMean, omSamplesC2, dayValues, listMean]
         exact ⟨5, ⟨by simp, rfl⟩, by norm_num⟩)⟩

/-- A value grouped under year `y` comes from a row of the series with
that year. -/
theorem valuesInYear_sub {s : DailySeries} {y : ℤ} {v : ℚ}
    (hv : v ∈ valuesInYear s y) : (y, v) ∈ s := by
  unfold valuesInYear at hv
  rcases List.mem_map.mp hv with ⟨r, hr, hrv⟩
  rcases List.mem_filter.mp hr with ⟨hrs, hry⟩
  have h1 : r.1 = y := by simpa using hry
  have h2 : r = (y, v) := by
    cases r
    simp_all
  rwa [h2] at hrs

/-- Every entry of the annual-maxima table is attained by a row of the
series and bounds all values of its year. -/
theorem annualMax_mem {s : DailySeries} {p : ℤ × ℚ} (hp : p ∈ annualMax s) :
    (p.1, p.2) ∈ s ∧ ∀ v ∈ valuesInYear s p.1, v ≤ p.2 := by
  unfold annualMax at hp
  rcases List.mem_filterMap.mp hp with ⟨y, _, hmap⟩
  rcases Option.map_eq_some'.mp hmap with ⟨m, hm, hpm⟩
  have hspec := seriesMax_spec hm
  subst hpm
  exact ⟨valuesInYear_sub hspec.1, hspec.2⟩

/-- Every row of the cleaned series originates from a non-missing row of
the raw column and is strictly positive. -/
theorem cleanSeries_mem {name : String} {rows : List (ℤ × Option ℚ)} {r : ℤ × ℚ}
    (hr : r ∈ cleanSeries name rows) : (r.1, some r.2) ∈ rows ∧ 0 < r.2 := by
  unfold cleanSeries at hr
  have hr' : r ∈ (dropnaRows rows).filter (fun t => 0 < t.2) := by
    by_cases h : isNoaaKey name = true
    · rw [if_pos h] at hr
      exact (List.mem_filter.mp hr).1
    · rw [if_neg h] at hr
      exact hr
  rcases List.mem_filter.mp hr' with ⟨hmem, hposb⟩
  have hpos : 0 < r.2 := by simpa using hposb
  refine ⟨?_, hpos⟩
  unfold dropnaRows at hmem
  rcases List.mem_filterMap.mp hmem with ⟨a, ha, hmap⟩
  rcases Option.map_eq_some'.mp hmap with ⟨v, hv, hva⟩
  cases a with
  | mk a1 a2 =>
    subst hva
    subst hv
    exact ha

/-- Claim C9: the cleaning step keeps only strictly positive daily
values, so every exported annual maximum is strictly positive, and a
year all of whose non-missing daily values are ≤ 0 contributes no annual
maximum at all (rather than a zero). -/
theorem C9_positive_annual_maxima (name : String) (rows : List (ℤ × Option ℚ)) :
    (∀ r ∈ cleanSeries name rows, 0 < r.2) ∧
    (∀ p ∈ exportAnnualMax (cleanSeries name rows), 0 < p.2) ∧
    (∀ y : ℤ, (∀ t ∈ rows, t.1 = y → ∀ v : ℚ, t.2 = some v → v ≤ 0) →
      ∀ p ∈ exportAnnualMax (cleanSeries name rows), p.1 ≠ y) := by
  refine ⟨?_, ?_, ?_⟩
  · intro r hr
    exact (cleanSeries_mem hr).2
  · intro p hp
    have h := annualMax_mem (s := cleanSeries name rows) hp
    exact (cleanSeries_mem h.1).2
  · intro y hy p hp hpy
    have h := annualMax_mem (s := cleanSeries name rows) hp
    have hmem := cleanSeries_mem h.1
    have hle : p.2 ≤ 0 := hy _ hmem.1 (by simpa using hpy) p.2 rfl
    exact absurd hmem.2 (not_lt.mpr hle)

/-- A concrete raw column: year 2000 has values 5 and -3, year 2001 has
only the value 0 and a missing entry. -/
def rowsC9 : List (ℤ × Option ℚ) :=
  [(2000, some 5), (2000, some (-3)), (2001, some 0), (2001, none)]

/-- Claim C9 witness: on the concrete column, the exported annual-maxima
table is exactly `[(2000, 5)]` — the non-positive values are gone and
year 2001 (whose only valid value is 0) contributes no row — and the
single exported maximum is strictly positive. -/
theorem C9_positive_annual_maxima_witness :
    exportAnnualMax (cleanSeries "era5" rowsC9) = [(2000, 5)] ∧
    (0 : ℚ) < ((2000 : ℤ), (5 : ℚ)).2 :=
  ⟨by decide, (C9_positive_annual_maxima "era5" rowsC9).2.1 (2000, 5) (by decide)⟩

/-- A raw noaa `windspeed_mean` column with five non-missing daily
values, one of which is the 999 missing-value sentinel. -/
def rowsC4 : List (ℤ × Option ℚ) :=
  [(2000, some 3), (2001, some 4), (2002, some 5), (2003, some 6), (2004, some 999)]

/-- A loaded noaa source carrying the sentinel-bearing column. -/
def srcC4 : SourceData := ⟨"noaa_station1", true, some rowsC4, none⟩

/-- Fit oracle for claim C4 (never consulted: noaa sources are skipped
before any fit). -/
def fitC4 : List ℚ → Option (ℝ × ℝ) := fun _ => none

/-- Claim C4 counterexample: a daily value of 999 m/s from a
999-sentinel provider is NOT excluded from the descriptive statistics —
the source passes the 5-valid-values gate with the sentinel counted as
valid, 999 sits among the values `describe()` processes, and it is even
reported as the `max` statistic (`analysis_runner.py` lines 145-154
apply no sentinel filtering). -/
theorem C4_counterexample :
    statsIncluded srcC4 = true ∧
    (999 : ℚ) ∈ statsValidValues rowsC4 ∧
    statsDescribeMax srcC4 = some 999 := by
  refine ⟨by decide, by decide, by decide⟩

/-- Claim C4 amended: sources with the noaa 999-sentinel convention are
excluded wholesale from the return-period pass, so a 999 value never
reaches annual-maxima extraction (and on the in-loop cleaning path —
unreachable for noaa sources — a noaa-keyed series would indeed have 999
dropped before the annual maxima); descriptive statistics, however, keep
999 as an ordinary valid measurement. -/
theorem C4_sentinel_scope
    (fit : List ℚ → Option (ℝ × ℝ)) (src : SourceData) (bcMean bcGust : ℚ)
    (rows : List (ℤ × Option ℚ)) (name : String) (y : ℤ)
    (hn : isNoaaKey src.name = true) (hname : isNoaaKey name = true) :
    sourceRows fit bcMean bcGust src = [] ∧
    ((y, some (999 : ℚ)) ∈ rows → (999 : ℚ) ∈ statsValidValues rows) ∧
    (∀ p ∈ exportAnnualMax (cleanSeries name rows), p.2 ≠ 999) := by
  refine ⟨?_, ?_, ?_⟩
  · unfold sourceRows
    rw [if_pos hn]
  · intro h999
    unfold statsValidValues
    exact List.mem_filterMap.mpr ⟨(y, some 999), h999, rfl⟩
  · intro p hp
    have h := annualMax_mem (s := cleanSeries name rows) hp
    have h1 := h.1
    simp only [cleanSeries, hname, if_true] at h1
    have h2 := (List.mem_filter.mp h1).2
    simpa using h2

/-- Claim C4 witness: the noaa source carrying the sentinel contributes
no row at all to the return-period table, while its 999 value is among
the values used by the descriptive statistics. -/
theorem C4_sentinel_scope_witness :
    sourceRows fitC4 25 25 srcC4 = [] ∧ (999 : ℚ) ∈ statsValidValues rowsC4 :=
  ⟨(C4_sentinel_scope fitC4 srcC4 25 25 rowsC4 "noaa_station1" 2004
      (by decide) (by decide)).1,
   (C4_sentinel_scope fitC4 srcC4 25 25 rowsC4 "noaa_station1" 2004
      (by decide) (by decide)).2.1 (by decide)⟩

/-- Claim C5: the return-period table distributes over concatenation of
the source list (one source's outcome cannot abort the others), every
processed (non-noaa, column-present, time-present) combination
contributes its row whose value field is exactly the possibly-`"N/A"`
estimate — the row exists whatever the estimate outcome — and both an
empty series after missing-value filtering and a failed fit yield the
explicit `"N/A"` value rather than a dropped row. -/
theorem C5_failure_isolation
    (fit : List ℚ → Option (ℝ × ℝ)) (bcMean bcGust : ℚ)
    (l₁ l₂ : List SourceData) (src : SourceData)
    (meanRows gustRows : List (ℤ × Option ℚ))
    (hnoaa : isNoaaKey src.name = false) (htime : src.hasTime = true) :
    returnPeriodTable fit bcMean bcGust (l₁ ++ l₂) =
      returnPeriodTable fit bcMean bcGust l₁ ++ returnPeriodTable fit bcMean bcGust l₂ ∧
    (src.mean_col = some meanRows →
      ReturnRow.mk src.name "windspeed_mean" (returnLevelForVar fit src.name meanRows) bcMean
        ∈ sourceRows fit bcMean bcGust src) ∧
    (src.gust_col = some gustRows →
      ReturnRow.mk src.name "windspeed_gust" (returnLevelForVar fit src.name gustRows) bcGust
        ∈ sourceRows fit bcMean bcGust src) ∧
    (∀ name rows, dropnaRows rows = [] → returnLevelForVar fit name rows = none) ∧
    (∀ name rows, fit (annualMaxValues (cleanSeries name rows)) = none →
      returnLevelForVar fit name rows = none) := by
  refine ⟨?_, ?_, ?_, ?_, ?_⟩
  · unfold returnPeriodTable
    rw [List.map_append, List.flatten_append]
  · intro hcol
    unfold sourceRows
    rw [if_neg (by simp [hnoaa])]
    refine List.mem_append_left _ ?_
    rw [hcol]
    simp [rowsForVar, htime]
  · intro hcol
    unfold sourceRows
    rw [if_neg (by simp [hnoaa])]
    refine List.mem_append_right _ ?_
    rw [hcol]
    simp [rowsForVar, htime]
  · intro name rows hempty
    simp [returnLevelForVar, hempty]
  · intro name rows hfit
    unfold returnLevelForVar
    dsimp only
    split_ifs with h1 h2
    · rfl
    · rfl
    · unfold compute_return_level_50y
      split_ifs with h3
      · rfl
      · rw [hfit]

/-- Fit oracle for the claim-C5 witness: a fit that always fails, so
every estimate of the witness run is unavailable. -/
def fitC5 : List ℚ → Option (ℝ × ℝ) := fun _ => none

/-- A `windspeed_mean` column whose only entry is missing: the empty
series ("EmptySeriesError") failure case. -/
def rowsC5 : List (ℤ × Option ℚ) := [(2000, none)]

/-- A processed (non-noaa) source whose mean column fails estimation. -/
def srcC5 : SourceData := ⟨"era5", true, some rowsC5, none⟩

/-- A second independent source for the concatenation part. -/
def srcC5b : SourceData := ⟨"openmeteo", true, some rowsC5, none⟩

/-- Claim C5 witness: with a concrete two-source list and an
always-failing fit, the table of the concatenation is the concatenation
of the tables, and the failing source still contributes its
`windspeed_mean` row (whose value is the explicit unavailable marker). -/
theorem C5_failure_isolation_witness :
    returnPeriodTable fitC5 25 25 ([srcC5] ++ [srcC5b]) =
      returnPeriodTable fitC5 25 25 [srcC5] ++ returnPeriodTable fitC5 25 25 [srcC5b] ∧
    ReturnRow.mk "era5" "windspeed_mean" (returnLevelForVar fitC5 "era5" rowsC5) 25
      ∈ sourceRows fitC5 25 25 srcC5 :=
  ⟨(C5_failure_isolation fitC5 25 25 [srcC5] [srcC5b] srcC5 rowsC5 []
      (by decide) rfl).1,
   (C5_failure_isolation fitC5 25 25 [srcC5] [srcC5b] srcC5 rowsC5 []
      (by decide) rfl).2.1 rfl⟩

/-- A raw noaa `windspeed_mean` column with only four non-missing
values. -/
def rowsC7 : List (ℤ × Option ℚ) :=
  [(2000, some 3), (2001, some 4), (2002, none), (2003, some 5), (2004, some 6)]

/-- A noaa source with four valid values. -/
def srcC7 : SourceData := ⟨"noaa_station2", true, some rowsC7, none⟩

/-- Fit oracle for claim C7 (never consulted for noaa sources). -/
def fitC7 : List ℚ → Option (ℝ × ℝ) := fun _ => some (9, 1)

/-- Claim C7 counterexample: a reference-only (noaa-prefixed) source with
four valid values contributes no row to the return-period table — but it
does NOT participate in the descriptive-statistics output either: it
fails the 5-valid-values gate and lands in `skipped_sources`
(`analysis_runner.py` lines 148-152), so the claim's "still participates
in the descriptive-statistics output" is not unconditional. -/
theorem C7_counterexample :
    isNoaaKey srcC7.name = true ∧
    sourceRows fitC7 25 25 srcC7 = [] ∧
    statsIncluded srcC7 = false ∧
    statsSummaryNames [srcC7] = [] := by
  refine ⟨by decide, ?_, by decide, by decide⟩
  unfold sourceRows
  rw [if_pos (by decide)]

/-- Claim C7 amended: every noaa-prefixed source is excluded from the
return-period estimation pass (no row in the return-period table), and
it participates in the descriptive-statistics output exactly under the
same condition as any other source: a `windspeed_mean` column with at
least 5 non-missing values. -/
theorem C7_reference_only_exclusion
    (fit : List ℚ → Option (ℝ × ℝ)) (bcMean bcGust : ℚ) (src : SourceData)
    (hnoaa : isNoaaKey src.name = true) :
    sourceRows fit bcMean bcGust src = [] ∧
    (statsIncluded src = true ↔
      ∃ rows, src.mean_col = some rows ∧ 5 ≤ (statsValidValues rows).length) := by
  constructor
  · unfold sourceRows
    rw [if_pos hnoaa]
  · unfold statsIncluded
    cases h : src.mean_col with
    | none => simp
    | some rows => simp

/-- A raw noaa `windspeed_mean` column with five non-missing values. -/
def rowsC7W : List (ℤ × Option ℚ) :=
  [(2000, some 3), (2001, some 4), (2002, some 7), (2003, some 5), (2004, some 6)]

/-- A noaa source with five valid values. -/
def srcC7W : SourceData := ⟨"noaa_station1", true, some rowsC7W, none⟩

/-- Claim C7 witness: the amended exclusion rule applied at a concrete
noaa source with five valid values — no return-period row, and stats
participation reduces to the 5-valid-values condition (which this source
meets). -/
theorem C7_reference_only_exclusion_witness :
    sourceRows fitC7 25 25 srcC7W = [] ∧
    (statsIncluded srcC7W = true ↔
      ∃ rows, srcC7W.mean_col = some rows ∧ 5 ≤ (statsValidValues rows).length) :=
  C7_reference_only_exclusion fitC7 25 25 srcC7W (by decide)
